import Mathlib

/-!
Verification of the core logic of the Dimmer screen-dimming utility
(`dimmer.pyw`): the opacity curve of `DimmerOverlay.set_dimming`, the
schedule window test and remaining-time computation of `DimmerControl`,
the blue-light tint colour, profile persistence, and state persistence
on the dimmer toggle and slider paths.

Machine floats of the source are modelled as exact reals (for the
opacity curve, whose `**` is transcendental) or rationals (for the tint
colour, whose operations are `+ * -` and `int()` truncation).  Times are
modelled at second granularity: `QTime` comparison is the comparison of
time since midnight, and the schedule code reads only `hour()` and
`minute()`.
-/

/-- RGB colour triple, modelling the `QColor` values passed to
`DimmerOverlay.set_dimming` (only presence matters for opacity). -/
structure PyColor where
  red : ℤ
  green : ℤ
  blue : ℤ
deriving DecidableEq, Repr

/-- The with-colour opacity curve of `DimmerOverlay.set_dimming`
(`if color:` branch), before the final clamp.  Input is the
already-validated percentage. -/
noncomputable def colorOpacity (p : ℤ) : ℝ :=
  if p ≤ 12 then
    (p : ℝ) / 100
  else if p ≤ 15 then
    (p : ℝ) * 2.0 / 100
  else if p ≤ 30 then
    0.30 + (((p : ℝ) - 15) / 15) ^ (1.0 : ℝ) * 0.20
  else if p ≤ 50 then
    0.50 + (((p : ℝ) - 30) / 20) ^ (1.2 : ℝ) * 0.15
  else
    0.65 + (((p : ℝ) - 50) / 45) ^ (1.4 : ℝ) * 0.25

/-- The no-colour ("pure black") opacity curve of
`DimmerOverlay.set_dimming` (`else` branch), before the final clamp. -/
noncomputable def blackOpacity (p : ℤ) : ℝ :=
  if p ≤ 5 then
    (p : ℝ) * 4.0 / 100
  else if p ≤ 15 then
    0.20 + (((p : ℝ) - 5) / 10) ^ (1.0 : ℝ) * 0.20
  else if p ≤ 30 then
    0.40 + (((p : ℝ) - 15) / 15) ^ (1.2 : ℝ) * 0.25
  else if p ≤ 50 then
    0.65 + (((p : ℝ) - 30) / 20) ^ (1.4 : ℝ) * 0.15
  else if p ≤ 75 then
    0.80 + (((p : ℝ) - 50) / 25) ^ (1.6 : ℝ) * 0.12
  else
    0.92 + (((p : ℝ) - 75) / 20) ^ (2.5 : ℝ) * 0.07

/-- Method `DimmerOverlay.set_dimming`: validate the slider percentage to
[0, 95], apply the with-colour or no-colour curve, and clamp the result
to [0.0, 0.99].  Returns the `actual_opacity` the overlay is set to. -/
noncomputable def set_dimming (opacity : ℤ) (color : Option PyColor) : ℝ :=
  let p := max 0 (min 95 opacity)
  let raw : ℝ :=
    match color with
    | some _ => colorOpacity p
    | none => blackOpacity p
  max (0.0 : ℝ) (min 0.99 raw)

/-- A wall-clock time of day, modelling `QTime` at second granularity
(the schedule code compares times and reads `hour()` and `minute()`;
schedule times are always created as whole minutes `QTime(h, m)`). -/
structure PyTime where
  hour : ℤ
  minute : ℤ
  second : ℤ
deriving DecidableEq, Repr

/-- Seconds since midnight; `QTime` comparison is comparison of time
since midnight. -/
def toSecs (t : PyTime) : ℤ :=
  t.hour * 3600 + t.minute * 60 + t.second

/-- Whole-minute seconds since midnight, as computed throughout
`_update_time_remaining`: `t.hour() * 3600 + t.minute() * 60`. -/
def minSecs (t : PyTime) : ℤ :=
  t.hour * 3600 + t.minute * 60

/-- A time is a valid time of day. -/
def ValidTime (t : PyTime) : Prop :=
  0 ≤ t.hour ∧ t.hour ≤ 23 ∧ 0 ≤ t.minute ∧ t.minute ≤ 59 ∧
    0 ≤ t.second ∧ t.second ≤ 59

instance (t : PyTime) : Decidable (ValidTime t) := by
  unfold ValidTime
  infer_instance

/-- The in-schedule test of `DimmerControl._check_schedule` (also
repeated verbatim in `_update_time_remaining`): same-day containment
when `start_time <= end_time`, wraparound disjunction otherwise. -/
def in_window (now startT endT : PyTime) : Bool :=
  if toSecs startT ≤ toSecs endT then
    decide (toSecs startT ≤ toSecs now) && decide (toSecs now ≤ toSecs endT)
  else
    decide (toSecs startT ≤ toSecs now) || decide (toSecs now ≤ toSecs endT)

/-- The remaining-seconds computation inlined in
`DimmerControl._update_time_remaining`, branch for branch. -/
def seconds_remaining (now startT endT : PyTime) : ℤ :=
  if in_window now startT endT then
    if toSecs startT ≤ toSecs endT then
      minSecs endT - minSecs now
    else if toSecs startT ≤ toSecs now then
      ((endT.hour + 24) * 3600 + endT.minute * 60) - minSecs now
    else
      minSecs endT - minSecs now
  else
    if toSecs startT ≤ toSecs endT then
      if minSecs now < minSecs startT then
        minSecs startT - minSecs now
      else
        24 * 3600 - minSecs now + minSecs startT
    else if toSecs now < toSecs endT then
      minSecs startT - minSecs now
    else
      minSecs startT - minSecs now

/-- Modelled from the spec: `seconds_until_boundary(now, start, end,
currentlyInWindow)` — seconds (at minute granularity) until the
window's far edge, the end time if inside the window and the start time
if outside, adding 24 h worth of seconds when the naive subtraction
would be negative.  Used to state the refinement claim about the
computation inlined in `_update_time_remaining`. -/
def seconds_until_boundary (now startT endT : PyTime) (inWin : Bool) : ℤ :=
  let tgt := if inWin then minSecs endT else minSecs startT
  let naive := tgt - minSecs now
  if naive < 0 then naive + 24 * 3600 else naive

/-- The controller state read and written by
`DimmerControl._check_schedule` (UI- and timer-only fields omitted). -/
structure CtrlState where
  dimmer_active : Bool
  blue_light_active : Bool
  current_dim : ℤ
  schedule_enabled : Bool
  schedule_time_set : Bool
  schedule_dim_value : ℤ
  start_time : PyTime
  end_time : PyTime
deriving DecidableEq, Repr

/-- One tick of `DimmerControl._check_schedule` at clock time `now`:
returns the post-tick controller state.  `dim_slider.setValue` runs
`_on_dim_changed`, which stores the value into `current_dim`;
`_toggle_dimmer` flips `dimmer_active` (the disable direction only
fires when blue light is off). -/
def check_schedule (now : PyTime) (s : CtrlState) : CtrlState :=
  if ¬ (s.schedule_enabled && s.schedule_time_set) then s
  else if in_window now s.start_time s.end_time then
    if ¬ s.dimmer_active then
      { s with current_dim := s.schedule_dim_value, dimmer_active := true }
    else s
  else
    if s.dimmer_active && ¬ s.blue_light_active then
      { s with dimmer_active := false }
    else s

/-- A named preset, the `Profile` dataclass:
`{dimming, blue_light, blue_intensity}`. -/
structure Profile where
  dimming : ℤ
  blue_light : Bool
  blue_intensity : ℤ
deriving DecidableEq, Repr

/-- State of a `ProfileManager` together with the profiles file it reads and
writes: `disk = none` models a missing file or malformed JSON (both
raise in `load` and are caught together), `disk = some m` a readable
file holding the mapping `m`. -/
structure PMState where
  profiles : List (String × Profile)
  cache_dirty : Bool
  disk : Option (List (String × Profile))
deriving DecidableEq, Repr

/-- Method `ProfileManager._get_defaults`: the four built-in profiles. -/
def get_defaults : List (String × Profile) :=
  [("Night Mode", ⟨85, true, 60⟩),
   ("Reading", ⟨60, false, 0⟩),
   ("Gaming", ⟨50, false, 0⟩),
   ("Movie", ⟨80, true, 30⟩)]

/-- Method `ProfileManager.save`: a no-op unless `_cache_dirty`; otherwise
overwrite the profiles file wholesale and clear the dirty flag. -/
def pm_save (s : PMState) : PMState :=
  if ¬ s.cache_dirty then s
  else { s with disk := some s.profiles, cache_dirty := false }

/-- Method `ProfileManager.load`: read the profiles file; on
`FileNotFoundError` or `JSONDecodeError`, replace the in-memory mapping
with the defaults and call `save`. -/
def pm_load (s : PMState) : PMState :=
  match s.disk with
  | some data => { s with profiles := data }
  | none => pm_save { s with profiles := get_defaults }

/-- Method `ProfileManager.__init__`: empty mapping, clean dirty flag, then
`load()` against the given profiles file. -/
def pm_init (disk : Option (List (String × Profile))) : PMState :=
  pm_load { profiles := [], cache_dirty := false, disk := disk }

/-- The dimmer state touched by `_toggle_dimmer` and `_on_dim_changed`,
paired with the copy of it last written to the state file by
`StateManager.save_state` (`saved_dimmer_active`, `saved_current_dim`). -/
structure AppState where
  dimmer_active : Bool
  current_dim : ℤ
  saved_dimmer_active : Bool
  saved_current_dim : ℤ
deriving DecidableEq, Repr

/-- Method `DimmerControl._save_state` / `StateManager.save_state`: overwrite
the state file with the current in-memory values. -/
def save_state (s : AppState) : AppState :=
  { s with saved_dimmer_active := s.dimmer_active,
           saved_current_dim := s.current_dim }

/-- Method `DimmerControl._on_dim_changed`: store the slider value into
`current_dim`, then `_save_state()` (overlay updates omitted). -/
def on_dim_changed (v : ℤ) (s : AppState) : AppState :=
  save_state { s with current_dim := v }

/-- Method `DimmerControl._toggle_dimmer`: the enable branch sets
`dimmer_active = True` and then calls `_save_state()`; the disable
branch sets `dimmer_active = False` and contains no `_save_state()`
call (overlay and UI updates omitted). -/
def toggle_dimmer (s : AppState) : AppState :=
  if ¬ s.dimmer_active then
    save_state { s with dimmer_active := true }
  else
    { s with dimmer_active := false }

/-- Python `int()` on an exact rational: truncation toward zero. -/
def pyInt (q : ℚ) : ℤ :=
  if 0 ≤ q then ⌊q⌋ else ⌈q⌉

/-- Method `DimmerControl._calculate_blue_light_color`: intensity 0 is pure
white; otherwise red stays 255, green is `int(255 - intensity * 0.55)`
clamped to at least 200, blue is `int(255 - intensity * 1.05)` clamped
to at least 150. -/
def calculate_blue_light_color (intensity : ℤ) : ℤ × ℤ × ℤ :=
  if intensity = 0 then
    (255, 255, 255)
  else
    let green := pyInt ((255 : ℚ) - (intensity : ℚ) * (55 / 100))
    let blue := pyInt ((255 : ℚ) - (intensity : ℚ) * (105 / 100))
    (255, max 200 green, max 150 blue)

lemma add_pow_nonneg {a c e x : ℝ} (hc : 0 ≤ c) (hx : 0 ≤ x) :
    a ≤ a + x ^ e * c := by
  have h := Real.rpow_nonneg hx e
  nlinarith

lemma add_pow_mono {a c e x y : ℝ} (hc : 0 ≤ c) (he : 0 ≤ e) (hx : 0 ≤ x)
    (hxy : x ≤ y) : a + x ^ e * c ≤ a + y ^ e * c := by
  have h := Real.rpow_le_rpow hx hxy he
  nlinarith

lemma blackOpacity_seg1 {p : ℤ} (h : p ≤ 5) :
    blackOpacity p = (p : ℝ) * 4.0 / 100 := by
  unfold blackOpacity
  rw [if_pos h]

lemma blackOpacity_seg2 {p : ℤ} (h5 : ¬ p ≤ 5) (h15 : p ≤ 15) :
    blackOpacity p = 0.20 + (((p : ℝ) - 5) / 10) ^ (1.0 : ℝ) * 0.20 := by
  unfold blackOpacity
  rw [if_neg h5, if_pos h15]

lemma blackOpacity_seg3 {p : ℤ} (h15 : ¬ p ≤ 15) (h30 : p ≤ 30) :
    blackOpacity p = 0.40 + (((p : ℝ) - 15) / 15) ^ (1.2 : ℝ) * 0.25 := by
  unfold blackOpacity
  rw [if_neg (by omega), if_neg h15, if_pos h30]

lemma blackOpacity_seg4 {p : ℤ} (h30 : ¬ p ≤ 30) (h50 : p ≤ 50) :
    blackOpacity p = 0.65 + (((p : ℝ) - 30) / 20) ^ (1.4 : ℝ) * 0.15 := by
  unfold blackOpacity
  rw [if_neg (by omega), if_neg (by omega), if_neg h30, if_pos h50]

lemma blackOpacity_seg5 {p : ℤ} (h50 : ¬ p ≤ 50) (h75 : p ≤ 75) :
    blackOpacity p = 0.80 + (((p : ℝ) - 50) / 25) ^ (1.6 : ℝ) * 0.12 := by
  unfold blackOpacity
  rw [if_neg (by omega), if_neg (by omega), if_neg (by omega), if_neg h50,
    if_pos h75]

lemma blackOpacity_seg6 {p : ℤ} (h75 : ¬ p ≤ 75) :
    blackOpacity p = 0.92 + (((p : ℝ) - 75) / 20) ^ (2.5 : ℝ) * 0.07 := by
  unfold blackOpacity
  rw [if_neg (by omega), if_neg (by omega), if_neg (by omega),
    if_neg (by omega), if_neg h75]

lemma blackOpacity_step (n : ℤ) (h0 : 0 ≤ n) (h95 : n + 1 ≤ 95) :
    blackOpacity n ≤ blackOpacity (n + 1) := by
  have hcast : ((n + 1 : ℤ) : ℝ) = (n : ℝ) + 1 := by push_cast; ring
  by_cases hA : n + 1 ≤ 5
  · rw [blackOpacity_seg1 (by omega), blackOpacity_seg1 hA, hcast]
    linarith
  by_cases hB : n ≤ 5
  · have hn : n = 5 := by omega
    have e1 : blackOpacity n = 0.20 := by
      rw [blackOpacity_seg1 hB, hn]
      norm_num
    have e2 : blackOpacity (n + 1) =
        0.20 + ((((n : ℝ) + 1) - 5) / 10) ^ (1.0 : ℝ) * 0.20 := by
      rw [blackOpacity_seg2 (by omega) (by omega), hcast]
    rw [e1, e2]
    refine add_pow_nonneg (by norm_num) ?_
    rw [hn]
    norm_num
  by_cases hC : n + 1 ≤ 15
  · rw [blackOpacity_seg2 (by omega) (by omega), blackOpacity_seg2 (by omega) hC,
      hcast]
    have h6 : (6 : ℝ) ≤ (n : ℝ) := by exact_mod_cast (by omega : (6 : ℤ) ≤ n)
    exact add_pow_mono (by norm_num) (by norm_num) (by linarith) (by linarith)
  by_cases hD : n ≤ 15
  · have hn : n = 15 := by omega
    have e1 : blackOpacity n = 0.40 := by
      rw [blackOpacity_seg2 (by omega) hD, hn]
      norm_num [Real.one_rpow]
    have e2 : blackOpacity (n + 1) =
        0.40 + ((((n : ℝ) + 1) - 15) / 15) ^ (1.2 : ℝ) * 0.25 := by
      rw [blackOpacity_seg3 (by omega) (by omega), hcast]
    rw [e1, e2]
    refine add_pow_nonneg (by norm_num) ?_
    rw [hn]
    norm_num
  by_cases hE : n + 1 ≤ 30
  · rw [blackOpacity_seg3 (by omega) (by omega), blackOpacity_seg3 (by omega) hE,
      hcast]
    have h16 : (16 : ℝ) ≤ (n : ℝ) := by exact_mod_cast (by omega : (16 : ℤ) ≤ n)
    exact add_pow_mono (by norm_num) (by norm_num) (by linarith) (by linarith)
  by_cases hF : n ≤ 30
  · have hn : n = 30 := by omega
    have e1 : blackOpacity n = 0.65 := by
      rw [blackOpacity_seg3 (by omega) hF, hn]
      norm_num [Real.one_rpow]
    have e2 : blackOpacity (n + 1) =
        0.65 + ((((n : ℝ) + 1) - 30) / 20) ^ (1.4 : ℝ) * 0.15 := by
      rw [blackOpacity_seg4 (by omega) (by omega), hcast]
    rw [e1, e2]
    refine add_pow_nonneg (by norm_num) ?_
    rw [hn]
    norm_num
  by_cases hG : n + 1 ≤ 50
  · rw [blackOpacity_seg4 (by omega) (by omega), blackOpacity_seg4 (by omega) hG,
      hcast]
    have h31 : (31 : ℝ) ≤ (n : ℝ) := by exact_mod_cast (by omega : (31 : ℤ) ≤ n)
    exact add_pow_mono (by norm_num) (by norm_num) (by linarith) (by linarith)
  by_cases hH : n ≤ 50
  · have hn : n = 50 := by omega
    have e1 : blackOpacity n = 0.80 := by
      rw [blackOpacity_seg4 (by omega) hH, hn]
      norm_num [Real.one_rpow]
    have e2 : blackOpacity (n + 1) =
        0.80 + ((((n : ℝ) + 1) - 50) / 25) ^ (1.6 : ℝ) * 0.12 := by
      rw [blackOpacity_seg5 (by omega) (by omega), hcast]
    rw [e1, e2]
    refine add_pow_nonneg (by norm_num) ?_
    rw [hn]
    norm_num
  by_cases hI : n + 1 ≤ 75
  · rw [blackOpacity_seg5 (by omega) (by omega), blackOpacity_seg5 (by omega) hI,
      hcast]
    have h51 : (51 : ℝ) ≤ (n : ℝ) := by exact_mod_cast (by omega : (51 : ℤ) ≤ n)
    exact add_pow_mono (by norm_num) (by norm_num) (by linarith) (by linarith)
  by_cases hJ : n ≤ 75
  · have hn : n = 75 := by omega
    have e1 : blackOpacity n = 0.92 := by
      rw [blackOpacity_seg5 (by omega) hJ, hn]
      norm_num [Real.one_rpow]
    have e2 : blackOpacity (n + 1) =
        0.92 + ((((n : ℝ) + 1) - 75) / 20) ^ (2.5 : ℝ) * 0.07 := by
      rw [blackOpacity_seg6 (by omega), hcast]
    rw [e1, e2]
    refine add_pow_nonneg (by norm_num) ?_
    rw [hn]
    norm_num
  · rw [blackOpacity_seg6 hJ, blackOpacity_seg6 (by omega), hcast]
    have h76 : (76 : ℝ) ≤ (n : ℝ) := by exact_mod_cast (by omega : (76 : ℤ) ≤ n)
    exact add_pow_mono (by norm_num) (by norm_num) (by linarith) (by linarith)

lemma blackOpacity_mono {p q : ℤ} (hp : 0 ≤ p) (hpq : p ≤ q) (hq : q ≤ 95) :
    blackOpacity p ≤ blackOpacity q := by
  have H : ∀ n : ℤ, p ≤ n → (n ≤ 95 → blackOpacity p ≤ blackOpacity n) :=
    Int.le_induction (fun _ => le_rfl)
      (fun n hpn ih h95 =>
        (ih (by omega)).trans (blackOpacity_step n (by omega) h95))
  exact H q hpq hq

lemma colorOpacity_seg1 {p : ℤ} (h : p ≤ 12) :
    colorOpacity p = (p : ℝ) / 100 := by
  unfold colorOpacity
  rw [if_pos h]

lemma colorOpacity_seg2 {p : ℤ} (h12 : ¬ p ≤ 12) (h15 : p ≤ 15) :
    colorOpacity p = (p : ℝ) * 2.0 / 100 := by
  unfold colorOpacity
  rw [if_neg h12, if_pos h15]

lemma set_dimming_none (p : ℤ) :
    set_dimming p none =
      max (0.0 : ℝ) (min 0.99 (blackOpacity (max 0 (min 95 p)))) := rfl

lemma set_dimming_some (p : ℤ) (c : PyColor) :
    set_dimming p (some c) =
      max (0.0 : ℝ) (min 0.99 (colorOpacity (max 0 (min 95 p)))) := rfl

lemma clamp95_eq {p : ℤ} (h0 : 0 ≤ p) (h95 : p ≤ 95) :
    max 0 (min 95 p) = p := by
  omega

lemma clamp01_eq {x : ℝ} (h0 : 0 ≤ x) (h99 : x ≤ 0.99) :
    max (0.0 : ℝ) (min 0.99 x) = x := by
  rw [min_eq_right h99]
  exact max_eq_right (le_trans (by norm_num) h0)

lemma blackOpacity_zero : blackOpacity 0 = 0 := by
  rw [blackOpacity_seg1 (by decide)]
  norm_num

lemma blackOpacity_95 : blackOpacity 95 = 0.99 := by
  rw [blackOpacity_seg6 (by decide)]
  norm_num [Real.one_rpow]

/-- Claim C1: for every percent in [0, 95] with no tint colour, the
no-tint opacity of `DimmerOverlay.set_dimming` is monotonically
non-decreasing in percent, is exactly 0.0 at percent 0, and is at least
0.92 at percent 95. -/
theorem C1_noTint_opacity_monotone_and_endpoints :
    (∀ p q : ℤ, 0 ≤ p → p ≤ q → q ≤ 95 →
        set_dimming p none ≤ set_dimming q none) ∧
    set_dimming 0 none = 0 ∧
    (0.92 : ℝ) ≤ set_dimming 95 none := by
  refine ⟨?_, ?_, ?_⟩
  · intro p q hp hpq hq
    rw [set_dimming_none, set_dimming_none, clamp95_eq hp (by omega),
      clamp95_eq (by omega) hq]
    exact max_le_max le_rfl (min_le_min le_rfl (blackOpacity_mono hp hpq hq))
  · rw [set_dimming_none, (by decide : max 0 (min 95 (0 : ℤ)) = 0),
      blackOpacity_zero, clamp01_eq le_rfl (by norm_num)]
  · rw [set_dimming_none, (by decide : max 0 (min 95 (95 : ℤ)) = 95),
      blackOpacity_95, clamp01_eq (by norm_num) (by norm_num)]
    norm_num

/-- Witness for C1: the monotonicity part applied at percents 30 and
60. -/
theorem C1_noTint_opacity_monotone_and_endpoints_witness :
    set_dimming 30 none ≤ set_dimming 60 none :=
  C1_noTint_opacity_monotone_and_endpoints.1 30 60 (by norm_num)
    (by norm_num) (by norm_num)

/-- Claim C2: for every integer percent input (clamped to [0, 95]
first) and any optional tint colour, `DimmerOverlay.set_dimming`
computes an opacity in [0.0, 0.99]; it never reaches 1.0. -/
theorem C2_opacity_always_in_unit_clamp (o : ℤ) (c : Option PyColor) :
    0 ≤ set_dimming o c ∧ set_dimming o c ≤ 0.99 ∧ set_dimming o c < 1 := by
  have key : ∀ r : ℝ,
      0 ≤ max (0.0 : ℝ) (min 0.99 r) ∧
        max (0.0 : ℝ) (min 0.99 r) ≤ 0.99 := by
    intro r
    constructor
    · exact le_trans (by norm_num) (le_max_left (0.0 : ℝ) (min 0.99 r))
    · exact max_le (by norm_num) (min_le_left 0.99 r)
  cases c with
  | none =>
    rw [set_dimming_none]
    obtain ⟨h1, h2⟩ := key (blackOpacity (max 0 (min 95 o)))
    exact ⟨h1, h2, lt_of_le_of_lt h2 (by norm_num)⟩
  | some col =>
    rw [set_dimming_some]
    obtain ⟨h1, h2⟩ := key (colorOpacity (max 0 (min 95 o)))
    exact ⟨h1, h2, lt_of_le_of_lt h2 (by norm_num)⟩

/-- Claim C8: for every percent in [0, 95] with a tint colour present,
if the percent is at most 12 then `DimmerOverlay.set_dimming` computes
exactly the linear opacity percent / 100, with no clamping effect. -/
theorem C8_tint_low_percent_linear (p : ℤ) (c : PyColor)
    (h0 : 0 ≤ p) (h95 : p ≤ 95) (h12 : p ≤ 12) :
    set_dimming p (some c) = (p : ℝ) / 100 := by
  rw [set_dimming_some, clamp95_eq h0 h95, colorOpacity_seg1 h12]
  have hp : (0 : ℝ) ≤ (p : ℝ) := by exact_mod_cast h0
  have hp12 : (p : ℝ) ≤ 12 := by exact_mod_cast h12
  exact clamp01_eq (by linarith) (by linarith)

/-- Witness for C8: percent 7 with a white tint gives opacity 0.07. -/
theorem C8_tint_low_percent_linear_witness :
    set_dimming 7 (some ⟨255, 255, 255⟩) = 0.07 := by
  rw [C8_tint_low_percent_linear 7 ⟨255, 255, 255⟩ (by norm_num)
    (by norm_num) (by norm_num)]
  norm_num

/-- Claim C10: with any tint colour present, the opacity of
`DimmerOverlay.set_dimming` jumps from 0.12 at percent 12 to 0.26 at
percent 13, so one slider step more than doubles the opacity. -/
theorem C10_tint_boundary_discontinuity (c : PyColor) :
    set_dimming 12 (some c) = 0.12 ∧ set_dimming 13 (some c) = 0.26 ∧
      2 * set_dimming 12 (some c) < set_dimming 13 (some c) := by
  have h12 : set_dimming 12 (some c) = 0.12 := by
    rw [set_dimming_some, (by decide : max 0 (min 95 (12 : ℤ)) = 12),
      colorOpacity_seg1 (by decide), clamp01_eq (by norm_num) (by norm_num)]
    norm_num
  have h13 : set_dimming 13 (some c) = 0.26 := by
    rw [set_dimming_some, (by decide : max 0 (min 95 (13 : ℤ)) = 13),
      colorOpacity_seg2 (by decide) (by decide),
      clamp01_eq (by norm_num) (by norm_num)]
    norm_num
  refine ⟨h12, h13, ?_⟩
  rw [h12, h13]
  norm_num

/-- Claim C3: the in-window test of `_check_schedule` is same-day
containment when start ≤ end and the wraparound disjunction when
start > end; for start 22:00 and end 06:00 it holds at 23:30 and 02:00
and fails at 12:00. -/
theorem C3_in_window_characterization :
    (∀ now startT endT : PyTime, toSecs startT ≠ toSecs endT →
      (toSecs startT ≤ toSecs endT →
        (in_window now startT endT = true ↔
          toSecs startT ≤ toSecs now ∧ toSecs now ≤ toSecs endT)) ∧
      (toSecs endT < toSecs startT →
        (in_window now startT endT = true ↔
          toSecs startT ≤ toSecs now ∨ toSecs now ≤ toSecs endT))) ∧
    in_window ⟨23, 30, 0⟩ ⟨22, 0, 0⟩ ⟨6, 0, 0⟩ = true ∧
    in_window ⟨2, 0, 0⟩ ⟨22, 0, 0⟩ ⟨6, 0, 0⟩ = true ∧
    in_window ⟨12, 0, 0⟩ ⟨22, 0, 0⟩ ⟨6, 0, 0⟩ = false := by
  refine ⟨?_, by decide, by decide, by decide⟩
  intro now s e hne
  constructor
  · intro hle
    unfold in_window
    rw [if_pos hle]
    simp
  · intro hlt
    unfold in_window
    rw [if_neg (by omega)]
    simp

/-- Witness for C3: the wraparound characterization applied at
now 23:30, start 22:00, end 06:00. -/
theorem C3_in_window_characterization_witness :
    in_window ⟨23, 30, 0⟩ ⟨22, 0, 0⟩ ⟨6, 0, 0⟩ = true ↔
      toSecs ⟨22, 0, 0⟩ ≤ toSecs ⟨23, 30, 0⟩ ∨
        toSecs ⟨23, 30, 0⟩ ≤ toSecs ⟨6, 0, 0⟩ :=
  (C3_in_window_characterization.1 ⟨23, 30, 0⟩ ⟨22, 0, 0⟩ ⟨6, 0, 0⟩
    (by decide)).2 (by decide)

/-- Counterexample to claim C4: a schedule tick taken in-window with
the dimmer already On at 25% and the schedule level 90% leaves the
current dim percent at 25, not 90 (`_check_schedule` only sets the
slider when `not self.dimmer_active`). -/
theorem C4_counterexample :
    (⟨true, false, 25, true, true, 90, ⟨18, 0, 0⟩, ⟨6, 0, 0⟩⟩ :
        CtrlState).schedule_enabled = true ∧
    (⟨true, false, 25, true, true, 90, ⟨18, 0, 0⟩, ⟨6, 0, 0⟩⟩ :
        CtrlState).schedule_time_set = true ∧
    in_window ⟨19, 0, 0⟩ ⟨18, 0, 0⟩ ⟨6, 0, 0⟩ = true ∧
    (⟨true, false, 25, true, true, 90, ⟨18, 0, 0⟩, ⟨6, 0, 0⟩⟩ :
        CtrlState).dimmer_active = true ∧
    (check_schedule ⟨19, 0, 0⟩
        ⟨true, false, 25, true, true, 90, ⟨18, 0, 0⟩, ⟨6, 0, 0⟩⟩).current_dim
      = 25 ∧
    (check_schedule ⟨19, 0, 0⟩
        ⟨true, false, 25, true, true, 90, ⟨18, 0, 0⟩, ⟨6, 0, 0⟩⟩).current_dim
      ≠ 90 := by
  decide

/-- Claim C4 amended: on an in-window tick with the schedule enabled
and a window set, `_check_schedule` turns a previously-Off dimmer On at
the configured schedule level; a dimmer already On is left entirely
unchanged (its percent is not forced to the schedule level). -/
theorem C4_schedule_tick_amended (now : PyTime) (s : CtrlState)
    (hen : s.schedule_enabled = true) (hset : s.schedule_time_set = true)
    (hin : in_window now s.start_time s.end_time = true) :
    (s.dimmer_active = false →
      (check_schedule now s).dimmer_active = true ∧
      (check_schedule now s).current_dim = s.schedule_dim_value) ∧
    (s.dimmer_active = true → check_schedule now s = s) := by
  constructor
  · intro hoff
    unfold check_schedule
    rw [hen, hset, hin, hoff]
    simp
  · intro hon
    unfold check_schedule
    rw [hen, hset, hin, hon]
    simp

/-- Witness for C4 (amended): the 18:00–06:00 at 90% scenario at
19:00, dimmer previously Off at 25%. -/
theorem C4_schedule_tick_amended_witness :
    (check_schedule ⟨19, 0, 0⟩
        ⟨false, false, 25, true, true, 90, ⟨18, 0, 0⟩, ⟨6, 0, 0⟩⟩).dimmer_active
      = true ∧
    (check_schedule ⟨19, 0, 0⟩
        ⟨false, false, 25, true, true, 90, ⟨18, 0, 0⟩, ⟨6, 0, 0⟩⟩).current_dim
      = 90 :=
  (C4_schedule_tick_amended ⟨19, 0, 0⟩
    ⟨false, false, 25, true, true, 90, ⟨18, 0, 0⟩, ⟨6, 0, 0⟩⟩ rfl rfl
    (by decide)).1 rfl

/-- Claim C5 at its failing input: constructing a `ProfileManager`
against a missing or malformed profiles file replaces the in-memory
mapping with the four defaults, but does NOT persist them — the
`self.save()` call in `load`'s error path returns early because
`_cache_dirty` is still `False`, so the file stays absent. -/
theorem C5_load_defaults_not_persisted :
    (pm_init none).profiles = get_defaults ∧
    (pm_init none).cache_dirty = false ∧
    (pm_init none).disk = none :=
  ⟨rfl, rfl, rfl⟩

/-- Counterexample to claim C6: the On→Off direction of
`_toggle_dimmer` contains no `_save_state()` call, so it leaves the
persisted dimmer flag stale (still `true`). -/
theorem C6_counterexample :
    toggle_dimmer ⟨true, 40, true, 40⟩ = ⟨false, 40, true, 40⟩ ∧
    (toggle_dimmer ⟨true, 40, true, 40⟩).saved_dimmer_active ≠
      (toggle_dimmer ⟨true, 40, true, 40⟩).dimmer_active := by
  decide

/-- Claim C6 amended: every dim-slider change and the Off→On direction
of the dimmer toggle write the state file before completing, leaving
the persisted state equal to the in-memory state; the On→Off direction
performs no state write, leaving the previously persisted values
untouched. -/
theorem C6_persistence_amended (v : ℤ) (s : AppState) :
    ((on_dim_changed v s).saved_dimmer_active =
        (on_dim_changed v s).dimmer_active ∧
      (on_dim_changed v s).saved_current_dim =
        (on_dim_changed v s).current_dim) ∧
    (s.dimmer_active = false →
      (toggle_dimmer s).saved_dimmer_active =
        (toggle_dimmer s).dimmer_active ∧
      (toggle_dimmer s).saved_current_dim =
        (toggle_dimmer s).current_dim) ∧
    (s.dimmer_active = true →
      (toggle_dimmer s).dimmer_active = false ∧
      (toggle_dimmer s).saved_dimmer_active = s.saved_dimmer_active ∧
      (toggle_dimmer s).saved_current_dim = s.saved_current_dim) := by
  refine ⟨⟨rfl, rfl⟩, ?_, ?_⟩
  · intro h
    unfold toggle_dimmer
    rw [h]
    simp [save_state]
  · intro h
    unfold toggle_dimmer
    rw [h]
    simp

/-- Witness for C6 (amended): the Off→On toggle from a stale persisted
state leaves the saved flag equal to the in-memory flag. -/
theorem C6_persistence_amended_witness :
    (toggle_dimmer ⟨false, 30, true, 80⟩).saved_dimmer_active =
      (toggle_dimmer ⟨false, 30, true, 80⟩).dimmer_active :=
  ((C6_persistence_amended 0 ⟨false, 30, true, 80⟩).2.1 rfl).1

/-- Claim C9: `_calculate_blue_light_color` is pure white at intensity
0, the warm orange (255, 200, 150) at intensity 100, and for every
intensity in [0, 100] keeps red at 255, green at least 200 and blue at
least 150. -/
theorem C9_blue_light_color :
    calculate_blue_light_color 0 = (255, 255, 255) ∧
    calculate_blue_light_color 100 = (255, 200, 150) ∧
    (∀ i : ℤ, 0 ≤ i → i ≤ 100 →
      (calculate_blue_light_color i).1 = 255 ∧
      200 ≤ (calculate_blue_light_color i).2.1 ∧
      150 ≤ (calculate_blue_light_color i).2.2) := by
  refine ⟨by norm_num [calculate_blue_light_color],
    by norm_num [calculate_blue_light_color, pyInt], ?_⟩
  intro i h0 h100
  by_cases hz : i = 0
  · subst hz
    norm_num [calculate_blue_light_color]
  · unfold calculate_blue_light_color
    rw [if_neg hz]
    exact ⟨rfl, le_max_left _ _, le_max_left _ _⟩

/-- Witness for C9: the channel bounds applied at intensity 37. -/
theorem C9_blue_light_color_witness :
    200 ≤ (calculate_blue_light_color 37).2.1 :=
  (C9_blue_light_color.2.2 37 (by norm_num) (by norm_num)).2.1

lemma in_window_iff (now s e : PyTime) :
    in_window now s e = true ↔
      (if toSecs s ≤ toSecs e then
        toSecs s ≤ toSecs now ∧ toSecs now ≤ toSecs e
      else
        toSecs s ≤ toSecs now ∨ toSecs now ≤ toSecs e) := by
  unfold in_window
  split_ifs with h
  · simp
  · simp

lemma seconds_remaining_spec (now s e : PyTime)
    (hnow : ValidTime now) (hs : ValidTime s) (he : ValidTime e)
    (hs0 : s.second = 0) (he0 : e.second = 0)
    (hne : toSecs s ≠ toSecs e) :
    seconds_remaining now s e =
      seconds_until_boundary now s e (in_window now s e) := by
  obtain ⟨h1, h2, h3, h4, h5, h6⟩ := hnow
  obtain ⟨g1, g2, g3, g4, g5, g6⟩ := hs
  obtain ⟨k1, k2, k3, k4, k5, k6⟩ := he
  by_cases hw : in_window now s e = true
  · have hin := (in_window_iff now s e).mp hw
    by_cases hle : toSecs s ≤ toSecs e
    · rw [if_pos hle] at hin
      simp only [seconds_remaining, seconds_until_boundary, hw, if_true]
      split_ifs
      all_goals simp only [toSecs, minSecs] at *
      all_goals omega
    · rw [if_neg hle] at hin
      simp only [seconds_remaining, seconds_until_boundary, hw, if_true]
      split_ifs
      all_goals simp only [toSecs, minSecs] at *
      all_goals omega
  · have hw' : in_window now s e = false := by
      revert hw
      cases in_window now s e
      all_goals simp
    have hnin := (in_window_iff now s e).not.mp (by rw [hw']; simp)
    by_cases hle : toSecs s ≤ toSecs e
    · rw [if_pos hle] at hnin
      simp only [seconds_remaining, seconds_until_boundary, hw']
      split_ifs
      all_goals simp only [toSecs, minSecs] at *
      all_goals omega
    · rw [if_neg hle] at hnin
      simp only [seconds_remaining, seconds_until_boundary, hw']
      split_ifs
      all_goals simp only [toSecs, minSecs] at *
      all_goals omega

lemma seconds_until_boundary_nonneg (now s e : PyTime)
    (hnow : ValidTime now) (hs : ValidTime s) (he : ValidTime e)
    (b : Bool) : 0 ≤ seconds_until_boundary now s e b := by
  obtain ⟨h1, h2, h3, h4, h5, h6⟩ := hnow
  obtain ⟨g1, g2, g3, g4, g5, g6⟩ := hs
  obtain ⟨k1, k2, k3, k4, k5, k6⟩ := he
  simp only [seconds_until_boundary, minSecs]
  split_ifs <;> omega

/-- Claim C7: for whole-minute schedule times with start ≠ end (the
only schedule times the program creates) and any valid clock time, the
remaining-seconds computation inlined in `_update_time_remaining`
equals the minute-granular seconds until the window's far edge — end
if inside the window, start if outside, adding 24 h worth of seconds
exactly when the naive subtraction would be negative — and is never
negative. -/
theorem C7_seconds_remaining_boundary (now s e : PyTime)
    (hnow : ValidTime now) (hs : ValidTime s) (he : ValidTime e)
    (hs0 : s.second = 0) (he0 : e.second = 0)
    (hne : toSecs s ≠ toSecs e) :
    seconds_remaining now s e =
      seconds_until_boundary now s e (in_window now s e) ∧
    0 ≤ seconds_remaining now s e := by
  have heq := seconds_remaining_spec now s e hnow hs he hs0 he0 hne
  refine ⟨heq, ?_⟩
  rw [heq]
  exact seconds_until_boundary_nonneg now s e hnow hs he _

/-- Witness for C7: now 23:30 inside the overnight window
22:00–06:00; 6.5 hours (at minute granularity) remain until the end
edge. -/
theorem C7_seconds_remaining_boundary_witness :
    seconds_remaining ⟨23, 30, 0⟩ ⟨22, 0, 0⟩ ⟨6, 0, 0⟩ =
      seconds_until_boundary ⟨23, 30, 0⟩ ⟨22, 0, 0⟩ ⟨6, 0, 0⟩
        (in_window ⟨23, 30, 0⟩ ⟨22, 0, 0⟩ ⟨6, 0, 0⟩) ∧
    seconds_remaining ⟨23, 30, 0⟩ ⟨22, 0, 0⟩ ⟨6, 0, 0⟩ = 23400 :=
  ⟨(C7_seconds_remaining_boundary ⟨23, 30, 0⟩ ⟨22, 0, 0⟩ ⟨6, 0, 0⟩
      (by decide) (by decide) (by decide) rfl rfl (by decide)).1,
    by decide⟩
